import Mathlib

/-!
Verification of the capsule prim adapter
(pxr/usdImaging/usdImaging/capsuleAdapter.cpp).

The adapter maps a declarative capsule primitive (legacy single-radius
UsdGeomCapsule schema or the dual-radius UsdGeomCapsule_1 schema) to mesh
points and topology, tracks which attributes are time-varying, and maps an
edited attribute name to a dirty mask.

The shallow embedding below translates the adapter's functions.  External
collaborators that are not part of the sources (HdChangeTracker bit values,
GeomUtilCapsuleMeshGenerator, the class constants numRadial / numCapAxial)
are modelled from the spec; each such definition says so in its doc comment.
-/

/-- Spine axis token (UsdGeomTokens x, y, z). -/
inductive Axis
  | x
  | y
  | z
deriving DecidableEq

/-- Modelled from the spec: the HdChangeTracker bit values are not part of
the sources; the spec describes a DirtyMask as a bitset over output
categories (Points, Topology, Transform, Visibility, ...), so the mask is a
record of one flag per category. -/
structure DirtyMask where
  points : Bool
  topology : Bool
  transform : Bool
  visibility : Bool
deriving DecidableEq

/-- Bitwise or of two dirty masks. -/
def DirtyMask.or (a b : DirtyMask) : DirtyMask :=
  ⟨a.points || b.points, a.topology || b.topology,
   a.transform || b.transform, a.visibility || b.visibility⟩

/-- The single-bit mask HdChangeTracker::DirtyPoints. -/
def DirtyPoints : DirtyMask := ⟨true, false, false, false⟩

/-- UsdImagingCapsuleAdapter::ProcessPropertyChange (capsuleAdapter.cpp
lines 156-169).  The base adapter's mapping is an external collaborator,
passed as the function argument. -/
def ProcessPropertyChange (base : String → DirtyMask)
    (propertyName : String) : DirtyMask :=
  if propertyName = "height" ∨ propertyName = "radius" ∨ propertyName = "axis" then
    DirtyPoints
  else
    base propertyName

/-- Modelled from the spec: _IsVarying (the Variability Tracker's
CheckAndMarkVarying) is defined outside the sources; it queries the store
for time variability of the named attribute and ors the Points flag in when
the attribute varies.  The second component records which attributes were
actually queried. -/
def CheckAndMarkVarying (vary : String → Bool) (attrName : String)
    (st : DirtyMask × List String) : DirtyMask × List String :=
  if vary attrName then
    (st.1.or DirtyPoints, st.2 ++ [attrName])
  else
    (st.1, st.2 ++ [attrName])

/-- UsdImagingCapsuleAdapter::TrackVariability (capsuleAdapter.cpp lines
124-154) after the BaseAdapter::TrackVariability call, whose result is the
incoming mask bits0.  Each of the three checks is guarded by a test that
the Points bit is still clear, exactly as in the source. -/
def TrackVariability (bits0 : DirtyMask) (vary : String → Bool) :
    DirtyMask × List String :=
  let s1 := if bits0.points = false then
      CheckAndMarkVarying vary "height" (bits0, []) else (bits0, [])
  let s2 := if s1.1.points = false then
      CheckAndMarkVarying vary "radius" s1 else s1
  if s2.1.points = false then CheckAndMarkVarying vary "axis" s2 else s2

/-- Which capsule schema a primitive is typed as.  A USD prim has exactly
one schema type; UsdGeomCapsule and UsdGeomCapsule_1 are distinct typed
schemas, so prim.IsA can hold for at most one of them. -/
inductive SchemaVariant
  | legacyCapsule
  | capsule1
  | neither
deriving DecidableEq

/-- A capsule primitive as the adapter observes it: its schema type and,
for each shape attribute, the result of Get at a time (none models a read
failure; the value is then left untouched by Get). -/
structure CapsulePrim where
  variant : SchemaVariant
  heightAt : ℚ → Option ℚ
  radiusAt : ℚ → Option ℚ
  radiusBottomAt : ℚ → Option ℚ
  radiusTopAt : ℚ → Option ℚ
  axisAt : ℚ → Option Axis

/-- The shape parameters GetPoints accumulates in its local variables. -/
structure CapsuleParams where
  height : ℚ
  radiusBottom : ℚ
  radiusTop : ℚ
  axis : Axis
deriving DecidableEq

/-- The initial values of GetPoints's locals (capsuleAdapter.cpp lines
226-229): the built-in defaults. -/
def defaultCapsuleParams : CapsuleParams := ⟨2, 1/2, 1/2, Axis.z⟩

/-- The TF_WARN diagnostics the extraction helpers can emit. -/
inductive CapsuleWarning
  | heightW
  | radiusW
  | radiusBottomW
  | radiusTopW
  | axisW
deriving DecidableEq

/-- The two extractRadii overloads (capsuleAdapter.cpp lines 171-192),
dispatched on the schema variant as the C++ overload resolution does.
Arguments rb, rt are the in-out radius values; the result is the new
values plus the warnings emitted.  The legacy overload writes the top
radius only when the single radius attribute was read successfully. -/
def extractRadii (v : SchemaVariant) (prim : CapsulePrim) (t : ℚ)
    (rb rt : ℚ) : ℚ × ℚ × List CapsuleWarning :=
  match v with
  | SchemaVariant.legacyCapsule =>
    match prim.radiusAt t with
    | some r => (r, r, [])
    | none => (rb, rt, [CapsuleWarning.radiusW])
  | SchemaVariant.capsule1 =>
    let b := match prim.radiusBottomAt t with
      | some r => (r, ([] : List CapsuleWarning))
      | none => (rb, [CapsuleWarning.radiusBottomW])
    let tp := match prim.radiusTopAt t with
      | some r => (r, ([] : List CapsuleWarning))
      | none => (rt, [CapsuleWarning.radiusTopW])
    (b.1, tp.1, b.2 ++ tp.2)
  | SchemaVariant.neither => (rb, rt, [])

/-- extractCapsuleParameters<CapsuleType> (capsuleAdapter.cpp lines
194-215): a no-op unless the prim is typed as the requested variant;
otherwise height, the radii and the axis are read in sequence, each
failed read keeping the incoming value and emitting a warning. -/
def extractCapsuleParameters (v : SchemaVariant) (prim : CapsulePrim)
    (t : ℚ) (p : CapsuleParams) : CapsuleParams × List CapsuleWarning :=
  if prim.variant ≠ v then
    (p, [])
  else
    let hw := match prim.heightAt t with
      | some h => (h, ([] : List CapsuleWarning))
      | none => (p.height, [CapsuleWarning.heightW])
    let rw := extractRadii v prim t p.radiusBottom p.radiusTop
    let aw := match prim.axisAt t with
      | some a => (a, ([] : List CapsuleWarning))
      | none => (p.axis, [CapsuleWarning.axisW])
    (⟨hw.1, rw.1, rw.2.1, aw.1⟩, hw.2 ++ rw.2.2 ++ aw.2)

/-- Modelled from the spec: GeomUtilCapsuleMeshGenerator is not part of the
sources and the spec gives the generated lattice (two dome stacks of
axialCapRes latitude rings plus one pole each, two body rings, angularRes
longitude divisions over the sweep) but no numeric placement formulas.  A
generated point is therefore recorded by its lattice position (part, ring,
longitude index) together with the shape parameters its position depends
on: the radii, the height, the sweep and the axis the basis transform is
built from. -/
structure CapsulePt where
  part : ℕ
  ring : ℕ
  longi : ℕ
  rb : ℚ
  rt : ℚ
  hgt : ℚ
  sweep : ℚ
  ax : Axis
deriving DecidableEq

/-- One latitude ring of numRadial points. -/
def ringPts (numRadial part ringIdx : ℕ) (rb rt hgt sweep : ℚ)
    (ax : Axis) : List CapsulePt :=
  (List.range numRadial).map (fun j => ⟨part, ringIdx, j, rb, rt, hgt, sweep, ax⟩)

/-- A stack of n latitude rings (a dome). -/
def stackPts (numRadial part : ℕ) (rb rt hgt sweep : ℚ) (ax : Axis) :
    ℕ → List CapsulePt
  | 0 => []
  | n + 1 => stackPts numRadial part rb rt hgt sweep ax n
      ++ ringPts numRadial part n rb rt hgt sweep ax

/-- Modelled from the spec: GeomUtilCapsuleMeshGenerator::GeneratePoints.
Bottom pole (part 0), bottom dome rings (part 1), the two body rings
(part 2), top dome rings (part 3), top pole (part 4). -/
def GeneratePoints (numRadial numCapAxial : ℕ) (rb rt hgt sweep : ℚ)
    (ax : Axis) : List CapsulePt :=
  ⟨0, 0, 0, rb, rt, hgt, sweep, ax⟩ ::
    (stackPts numRadial 1 rb rt hgt sweep ax numCapAxial
      ++ ringPts numRadial 2 0 rb rt hgt sweep ax
      ++ ringPts numRadial 2 1 rb rt hgt sweep ax
      ++ stackPts numRadial 3 rb rt hgt sweep ax numCapAxial
      ++ [⟨4, 0, 0, rb, rt, hgt, sweep, ax⟩])

/-- Modelled from the spec: GeomUtilCapsuleMeshGenerator::ComputeNumPoints
for the closed sweep the adapter uses: 2 * axialCapRes dome rings plus the
two body rings, each of angularRes points, plus the two poles. -/
def ComputeNumPoints (numRadial numCapAxial : ℕ) : ℕ :=
  (2 * numCapAxial + 2) * numRadial + 2

/-- Face connectivity buffers of a mesh. -/
structure MeshTopology where
  faceVertexCounts : List ℕ
  faceVertexIndices : List ℕ
deriving DecidableEq

/-- Triangle fan connecting a pole to a ring. -/
def fanIndices (apex ringStart numRadial : ℕ) : List ℕ :=
  (List.range numRadial).flatMap
    (fun j => [apex, ringStart + j, ringStart + (j + 1) % numRadial])

/-- Quad band connecting two consecutive rings. -/
def bandIndices (r0 r1 numRadial : ℕ) : List ℕ :=
  (List.range numRadial).flatMap
    (fun j => [r0 + j, r0 + (j + 1) % numRadial,
               r1 + (j + 1) % numRadial, r1 + j])

/-- Modelled from the spec: GeomUtilCapsuleMeshGenerator::GenerateTopology
for the closed sweep the adapter uses.  The connectivity depends only on
the resolution arguments: a triangle fan at each pole and a quad band
between each pair of consecutive latitude rings. -/
def GenerateTopology (numRadial numCapAxial : ℕ) : MeshTopology :=
  let numRings := 2 * numCapAxial + 2
  let rs := fun k => 1 + k * numRadial
  ⟨List.replicate numRadial 3
     ++ (List.range (numRings - 1)).flatMap
          (fun _ => List.replicate numRadial 4)
     ++ List.replicate numRadial 3,
   fanIndices 0 (rs 0) numRadial
     ++ (List.range (numRings - 1)).flatMap
          (fun k => bandIndices (rs k) (rs (k + 1)) numRadial)
     ++ fanIndices (1 + numRings * numRadial) (rs (numRings - 1)) numRadial⟩

/-- The parameter-resolution part of UsdImagingCapsuleAdapter::GetPoints
(capsuleAdapter.cpp lines 226-233): defaults, then the legacy extraction,
then the Capsule_1 extraction, each a no-op unless the prim is typed as
that schema. -/
def GetPointsParams (prim : CapsulePrim) (t : ℚ) :
    CapsuleParams × List CapsuleWarning :=
  let r1 := extractCapsuleParameters SchemaVariant.legacyCapsule prim t
    defaultCapsuleParams
  let r2 := extractCapsuleParameters SchemaVariant.capsule1 prim t r1.1
  (r2.1, r1.2 ++ r2.2)

/-- UsdImagingCapsuleAdapter::GetPoints (capsuleAdapter.cpp lines 218-257).
The class constants numRadial / numCapAxial are declared outside the
sources, so they are arguments here; the sweep passed to the generator is
the local constant 360. -/
def GetPoints (numRadial numCapAxial : ℕ) (prim : CapsulePrim) (t : ℚ) :
    List CapsulePt :=
  let p := (GetPointsParams prim t).1
  GeneratePoints numRadial numCapAxial p.radiusBottom p.radiusTop p.height
    360 p.axis

/-- UsdImagingCapsuleAdapter::GetTopology (capsuleAdapter.cpp lines
259-274): a static constant built once from the resolution constants; the
prim and time arguments are unused. -/
def GetTopology (numRadial numCapAxial : ℕ) (_prim : CapsulePrim)
    (_t : ℚ) : MeshTopology :=
  GenerateTopology numRadial numCapAxial

/-- Resolution policy written from the spec's words, for comparison with
the code (section 4.2): try the newest schema variant first; only if the
primitive does not match it, try the legacy single-radius variant; with no
match the parameters stay at the built-in defaults. -/
def specResolveParameters (prim : CapsulePrim) (t : ℚ) : CapsuleParams :=
  if prim.variant = SchemaVariant.capsule1 then
    (extractCapsuleParameters SchemaVariant.capsule1 prim t
      defaultCapsuleParams).1
  else if prim.variant = SchemaVariant.legacyCapsule then
    (extractCapsuleParameters SchemaVariant.legacyCapsule prim t
      defaultCapsuleParams).1
  else
    defaultCapsuleParams

/-- Length of a latitude ring. -/
theorem ringPts_length (numRadial part ringIdx : ℕ) (rb rt hgt sweep : ℚ)
    (ax : Axis) :
    (ringPts numRadial part ringIdx rb rt hgt sweep ax).length = numRadial := by
  simp [ringPts]

/-- Length of a dome stack. -/
theorem stackPts_length (numRadial part : ℕ) (rb rt hgt sweep : ℚ)
    (ax : Axis) (n : ℕ) :
    (stackPts numRadial part rb rt hgt sweep ax n).length = n * numRadial := by
  induction n with
  | zero => simp [stackPts]
  | succ n ih =>
    simp [stackPts, ih, ringPts_length]
    ring

/-- GeneratePoints produces exactly ComputeNumPoints points. -/
theorem GeneratePoints_length (numRadial numCapAxial : ℕ)
    (rb rt hgt sweep : ℚ) (ax : Axis) :
    (GeneratePoints numRadial numCapAxial rb rt hgt sweep ax).length
      = ComputeNumPoints numRadial numCapAxial := by
  simp [GeneratePoints, ComputeNumPoints, stackPts_length, ringPts_length]
  ring

/-- Claim C1: ProcessPropertyChange returns a mask containing the Points
category when the property name is height, radius or axis, and for every
other name returns the base adapter's fallback mapping unchanged. -/
theorem ProcessPropertyChange_points_or_base (base : String → DirtyMask)
    (name : String) :
    ((name = "height" ∨ name = "radius" ∨ name = "axis") →
      (ProcessPropertyChange base name).points = true) ∧
    (¬(name = "height" ∨ name = "radius" ∨ name = "axis") →
      ProcessPropertyChange base name = base name) := by
  constructor
  · intro h
    simp [ProcessPropertyChange, h, DirtyPoints]
  · intro h
    simp [ProcessPropertyChange, h]

/-- Witness for C1 at the concrete names radius and visibility. -/
theorem ProcessPropertyChange_points_or_base_witness :
    (ProcessPropertyChange (fun _ => ⟨false, true, false, false⟩)
      "radius").points = true ∧
    ProcessPropertyChange (fun _ => ⟨false, true, false, false⟩)
      "visibility" = ⟨false, true, false, false⟩ :=
  ⟨(ProcessPropertyChange_points_or_base _ "radius").1
      (Or.inr (Or.inl rfl)),
   (ProcessPropertyChange_points_or_base _ "visibility").2 (by decide)⟩

/-- Claim C2: GetTopology is constant: its result is the same for every
pair of primitives and every pair of times at a fixed resolution (it is
GenerateTopology at the resolution constants, which depends on nothing
else, the prims' radii, height and axis included). -/
theorem GetTopology_constant (numRadial numCapAxial : ℕ)
    (p1 p2 : CapsulePrim) (t1 t2 : ℚ) :
    GetTopology numRadial numCapAxial p1 t1
      = GetTopology numRadial numCapAxial p2 t2 ∧
    GetTopology numRadial numCapAxial p1 t1
      = GenerateTopology numRadial numCapAxial := ⟨rfl, rfl⟩

/-- Claim C4: TrackVariability short-circuits on an already-varying
category: with the Points bit already set no attribute is queried and the
mask is unchanged; and when the bit is clear and height varies, the Points
bit is set after querying height alone, the radius and axis checks being
skipped. -/
theorem TrackVariability_short_circuit (bits0 : DirtyMask)
    (vary : String → Bool) :
    (bits0.points = true → TrackVariability bits0 vary = (bits0, [])) ∧
    (bits0.points = false → vary "height" = true →
      TrackVariability bits0 vary = (bits0.or DirtyPoints, ["height"])) := by
  constructor
  · intro h
    simp [TrackVariability, h]
  · intro h hv
    simp [TrackVariability, CheckAndMarkVarying, h, hv, DirtyMask.or,
      DirtyPoints]

/-- Witness for C4: a mask with Points set is returned untouched with no
checks, and from a clear mask with only height varying the result is the
Points mask after the single height check. -/
theorem TrackVariability_short_circuit_witness :
    TrackVariability ⟨true, false, false, false⟩ (fun _ => true)
      = (⟨true, false, false, false⟩, []) ∧
    TrackVariability ⟨false, false, false, false⟩ (fun n => n == "height")
      = (DirtyMask.or ⟨false, false, false, false⟩ DirtyPoints, ["height"]) :=
  ⟨(TrackVariability_short_circuit ⟨true, false, false, false⟩
      (fun _ => true)).1 rfl,
   (TrackVariability_short_circuit ⟨false, false, false, false⟩
      (fun n => n == "height")).2 rfl (by decide)⟩

/-- Claim C7 (failing input): TrackVariability never checks the Capsule_1
radii.  On a primitive whose radiusBottom attribute is the only
time-varying one, the three checks performed are height, radius and axis,
radiusBottom is never queried and the Points category is left unmarked,
although GetPoints does read radiusBottom per time and produces different
points at different times for that same primitive. -/
theorem TrackVariability_misses_radiusBottom :
    TrackVariability ⟨false, false, false, false⟩
        (fun n => n == "radiusBottom")
      = (⟨false, false, false, false⟩, ["height", "radius", "axis"]) ∧
    "radiusBottom" ∉ (TrackVariability ⟨false, false, false, false⟩
        (fun n => n == "radiusBottom")).2 ∧
    GetPoints 3 1
        ⟨SchemaVariant.capsule1, fun _ => some 2, fun _ => none,
          fun t => some t, fun _ => some (1/2), fun _ => some Axis.z⟩ 0
      ≠ GetPoints 3 1
        ⟨SchemaVariant.capsule1, fun _ => some 2, fun _ => none,
          fun t => some t, fun _ => some (1/2), fun _ => some Axis.z⟩ 1 := by
  refine ⟨by decide, by decide, ?_⟩
  decide

/-- Claim C3: for every primitive and time, the points array returned by
GetPoints has length exactly ComputeNumPoints at the resolution used, for
all valid resolutions angularRes at least 3 and axialCapRes at least 1. -/
theorem GetPoints_length (numRadial numCapAxial : ℕ) (prim : CapsulePrim)
    (t : ℚ) (_h3 : 3 ≤ numRadial) (_h1 : 1 ≤ numCapAxial) :
    (GetPoints numRadial numCapAxial prim t).length
      = ComputeNumPoints numRadial numCapAxial := by
  simp [GetPoints, GeneratePoints_length]

/-- Witness for C3 at resolution (3, 1) on a concrete primitive. -/
theorem GetPoints_length_witness :
    3 ≤ 3 ∧ 1 ≤ 1 ∧
    (GetPoints 3 1
        ⟨SchemaVariant.legacyCapsule, fun _ => some 2, fun _ => some (1/2),
          fun _ => none, fun _ => none, fun _ => some Axis.z⟩ 0).length
      = ComputeNumPoints 3 1 :=
  ⟨by decide, by decide,
   GetPoints_length 3 1
     ⟨SchemaVariant.legacyCapsule, fun _ => some 2, fun _ => some (1/2),
       fun _ => none, fun _ => none, fun _ => some Axis.z⟩ 0
     (by decide) (by decide)⟩

/-- A primitive typed only under the legacy schema with height 2 and
radius one half authored and no axis authored. -/
def legacyDemoPrim : CapsulePrim :=
  ⟨SchemaVariant.legacyCapsule, fun _ => some 2, fun _ => some (1/2),
    fun _ => none, fun _ => none, fun _ => none⟩

/-- A primitive authored under the dual-radius schema with height 2, both
radii one half and axis Z. -/
def dualDemoPrim : CapsulePrim :=
  ⟨SchemaVariant.capsule1, fun _ => some 2, fun _ => none,
    fun _ => some (1/2), fun _ => some (1/2), fun _ => some Axis.z⟩

/-- Claim C5: for every time (and resolution), the legacy single-radius
primitive with height 2, radius one half and no axis authored yields via
GetPoints the same mesh points as the dual-radius primitive with both
radii one half and axis Z; and the legacy extraction sets bottom and top
radius to the single authored radius value. -/
theorem legacy_dual_schema_equivalence (t : ℚ)
    (numRadial numCapAxial : ℕ) :
    GetPoints numRadial numCapAxial legacyDemoPrim t
      = GetPoints numRadial numCapAxial dualDemoPrim t ∧
    ∀ (r : ℚ) (hAt rbAt rtAt : ℚ → Option ℚ) (axAt : ℚ → Option Axis)
      (p : CapsuleParams),
      (extractCapsuleParameters SchemaVariant.legacyCapsule
          ⟨SchemaVariant.legacyCapsule, hAt, fun _ => some r, rbAt, rtAt,
            axAt⟩ t p).1.radiusBottom = r ∧
      (extractCapsuleParameters SchemaVariant.legacyCapsule
          ⟨SchemaVariant.legacyCapsule, hAt, fun _ => some r, rbAt, rtAt,
            axAt⟩ t p).1.radiusTop = r := by
  refine ⟨rfl, ?_⟩
  intro r hAt rbAt rtAt axAt p
  exact ⟨rfl, rfl⟩

/-- Claim C6: the parameter resolution the code performs (legacy
extraction followed by Capsule_1 extraction, each guarded by the prim's
type) equals the spec's newest-schema-first policy: the newest variant's
attribute set is used when the prim matches it, the legacy attribute set
only otherwise, and the defaults when neither matches. -/
theorem GetPointsParams_newest_first (prim : CapsulePrim) (t : ℚ) :
    (GetPointsParams prim t).1 = specResolveParameters prim t := by
  obtain ⟨v, hAt, rAt, rbAt, rtAt, axAt⟩ := prim
  cases v <;> rfl

/-- Claim C8: parameter reads succeed partially.  For a primitive of a
matching variant, each field of the result is the read value when the read
succeeds and the incoming built-in default when it fails, independently of
the other reads, and exactly the failed reads emit their diagnostic; the
read is never aborted as a whole.  Stated for both schema variants. -/
theorem extractCapsuleParameters_partial_success
    (hAt rAt rbAt rtAt : ℚ → Option ℚ) (axAt : ℚ → Option Axis) (t : ℚ)
    (p : CapsuleParams) :
    extractCapsuleParameters SchemaVariant.capsule1
        ⟨SchemaVariant.capsule1, hAt, rAt, rbAt, rtAt, axAt⟩ t p
      = (⟨(hAt t).getD p.height, (rbAt t).getD p.radiusBottom,
          (rtAt t).getD p.radiusTop, (axAt t).getD p.axis⟩,
         (if (hAt t).isNone then [CapsuleWarning.heightW] else [])
           ++ ((if (rbAt t).isNone then [CapsuleWarning.radiusBottomW] else [])
             ++ (if (rtAt t).isNone then [CapsuleWarning.radiusTopW] else []))
           ++ (if (axAt t).isNone then [CapsuleWarning.axisW] else [])) ∧
    extractCapsuleParameters SchemaVariant.legacyCapsule
        ⟨SchemaVariant.legacyCapsule, hAt, rAt, rbAt, rtAt, axAt⟩ t p
      = (⟨(hAt t).getD p.height, (rAt t).getD p.radiusBottom,
          (rAt t).getD p.radiusTop, (axAt t).getD p.axis⟩,
         (if (hAt t).isNone then [CapsuleWarning.heightW] else [])
           ++ (if (rAt t).isNone then [CapsuleWarning.radiusW] else [])
           ++ (if (axAt t).isNone then [CapsuleWarning.axisW] else [])) := by
  constructor
  · rcases hh : hAt t with _ | hv <;> rcases hb : rbAt t with _ | bv <;>
      rcases ht : rtAt t with _ | tv <;> rcases ha : axAt t with _ | av <;>
      simp [extractCapsuleParameters, extractRadii, hh, hb, ht, ha]
  · rcases hh : hAt t with _ | hv <;> rcases hr : rAt t with _ | rv <;>
      rcases ha : axAt t with _ | av <;>
      simp [extractCapsuleParameters, extractRadii, hh, hr, ha]

/-- Claim C9: zero-match tolerance.  For every primitive typed as neither
capsule schema variant, whatever its attribute readers and the time, the
resolved parameters remain at the built-in defaults (height 2, both radii
one half, axis Z), no diagnostic is emitted, and GetPoints still produces
the fully valid default mesh. -/
theorem unknown_variant_defaults (hAt rAt rbAt rtAt : ℚ → Option ℚ)
    (axAt : ℚ → Option Axis) (t : ℚ) (numRadial numCapAxial : ℕ) :
    GetPointsParams ⟨SchemaVariant.neither, hAt, rAt, rbAt, rtAt, axAt⟩ t
      = (defaultCapsuleParams, []) ∧
    GetPoints numRadial numCapAxial
        ⟨SchemaVariant.neither, hAt, rAt, rbAt, rtAt, axAt⟩ t
      = GeneratePoints numRadial numCapAxial (1/2) (1/2) 2 360 Axis.z :=
  ⟨rfl, rfl⟩

/-- Every point of a ring carries the sweep argument. -/
theorem ringPts_sweep (numRadial part ringIdx : ℕ) (rb rt hgt s : ℚ)
    (ax : Axis) :
    ∀ p ∈ ringPts numRadial part ringIdx rb rt hgt s ax, p.sweep = s := by
  intro p hp
  simp [ringPts] at hp
  obtain ⟨j, _, rfl⟩ := hp
  rfl

/-- Every point of a dome stack carries the sweep argument. -/
theorem stackPts_sweep (numRadial part : ℕ) (rb rt hgt s : ℚ) (ax : Axis)
    (n : ℕ) :
    ∀ p ∈ stackPts numRadial part rb rt hgt s ax n, p.sweep = s := by
  induction n with
  | zero => intro p hp; simp [stackPts] at hp
  | succ n ih =>
    intro p hp
    rw [stackPts, List.mem_append] at hp
    rcases hp with hp | hp
    · exact ih p hp
    · exact ringPts_sweep numRadial part n rb rt hgt s ax p hp

/-- Every generated point carries the sweep argument. -/
theorem GeneratePoints_sweep (numRadial numCapAxial : ℕ)
    (rb rt hgt s : ℚ) (ax : Axis) :
    ∀ p ∈ GeneratePoints numRadial numCapAxial rb rt hgt s ax,
      p.sweep = s := by
  intro p hp
  rw [GeneratePoints, List.mem_cons] at hp
  rcases hp with rfl | hp
  · rfl
  simp only [List.mem_append] at hp
  rcases hp with ((((hp | hp) | hp) | hp) | hp)
  · exact stackPts_sweep numRadial 1 rb rt hgt s ax numCapAxial p hp
  · exact ringPts_sweep numRadial 2 0 rb rt hgt s ax p hp
  · exact ringPts_sweep numRadial 2 1 rb rt hgt s ax p hp
  · exact stackPts_sweep numRadial 3 rb rt hgt s ax numCapAxial p hp
  · rw [List.mem_singleton] at hp; subst hp; rfl

/-- Claim C10: GetPoints always generates a full closed revolution: the
sweep it passes to the point generator is the constant 360, so every
generated point carries sweep 360, for every primitive and time. -/
theorem GetPoints_sweep_constant_360 (numRadial numCapAxial : ℕ)
    (prim : CapsulePrim) (t : ℚ) :
    GetPoints numRadial numCapAxial prim t
      = GeneratePoints numRadial numCapAxial
          ((GetPointsParams prim t).1.radiusBottom)
          ((GetPointsParams prim t).1.radiusTop)
          ((GetPointsParams prim t).1.height) 360
          ((GetPointsParams prim t).1.axis) ∧
    (GetPoints numRadial numCapAxial prim t).all
        (fun p => p.sweep == 360) = true := by
  refine ⟨rfl, ?_⟩
  rw [List.all_eq_true]
  intro p hp
  have hs := GeneratePoints_sweep numRadial numCapAxial
    ((GetPointsParams prim t).1.radiusBottom)
    ((GetPointsParams prim t).1.radiusTop)
    ((GetPointsParams prim t).1.height) 360
    ((GetPointsParams prim t).1.axis) p hp
  simpa using hs
